import Mathlib

/-
Verification development for the sftpman mount-lifecycle engine.

The Rust source is shallowly embedded:
- pure functions (command building, serialization, process matching) become
  Lean functions over the same data;
- effectful Manager operations become state-passing functions over an
  explicit environment `St` that answers each external query (mount-table
  reads, command executions, filesystem operations, process lookups,
  signal/liveness interactions) from per-kind answer streams, and that
  additionally records the external actions performed as a list of `Event`s.
-/

namespace SftpMan

/-! ## Authentication types (src/auth_type.rs) -/

inductive AuthType where
  | PublicKey
  | AuthenticationAgent
  | Password
  | KeyboardInteractive
  | HostBased
  | GSSAPIWithMic
deriving DecidableEq, Repr

/-- Textual encoding of an `AuthType` (source: `AuthType::to_static_str`). -/
def AuthType.to_static_str : AuthType → String
  | .PublicKey => "publickey"
  | .AuthenticationAgent => "authentication-agent"
  | .Password => "password"
  | .KeyboardInteractive => "keyboard-interactive"
  | .HostBased => "hostbased"
  | .GSSAPIWithMic => "gssapi-with-mic"

/-- Parsing of the textual encoding (source: `AuthType::from_string`). -/
def AuthType.from_string (s : String) : Except String AuthType :=
  if s = "publickey" then .ok .PublicKey
  else if s = "authentication-agent" then .ok .AuthenticationAgent
  else if s = "password" then .ok .Password
  else if s = "keyboard-interactive" then .ok .KeyboardInteractive
  else if s = "hostbased" then .ok .HostBased
  else if s = "gssapi-with-mic" then .ok .GSSAPIWithMic
  else .error "Unexpected string value"

/-! ## Filesystem mount definitions (src/model/filesystem_mount_definition.rs) -/

/-- Default mount root; the source constant `DEFAULT_MOUNT_PATH_PREFIX`
(renamed here) with value `/mnt/sshfs`. -/
def DEFAULT_MOUNT_PATH_ROOT : String := "/mnt/sshfs"

/-- A persisted mount specification (source struct `FilesystemMountDefinition`).
`port` is a `u16` in the source; it is a `Nat` here, with the `< 2^16` bound
carried as a hypothesis where it matters. -/
structure FilesystemMountDefinition where
  id : String
  host : String
  port : Nat
  user : String
  mount_options : List String
  remote_path : String
  mount_dest_path : Option String
  cmd_before_mount : String
  auth_type : AuthType
  ssh_key : String
deriving DecidableEq, Repr

/-- Effective local mount path (source: `local_mount_path`). -/
def local_mount_path (d : FilesystemMountDefinition) : String :=
  match d.mount_dest_path with
  | some path => path
  | none => DEFAULT_MOUNT_PATH_ROOT ++ "/" ++ d.id

/-- Connection target `user@[host]:remotePath`; the same format string is
built inline both in `mount_commands` and in `sshfs_pid_by_definition`. -/
def connection_target (d : FilesystemMountDefinition) : String :=
  d.user ++ "@[" ++ d.host ++ "]:" ++ d.remote_path

/-! ## External commands (std::process::Command, src/utils/command.rs) -/

/-- An external command: a program name plus its argument list. -/
structure Cmd where
  program : String
  args : List String
deriving DecidableEq, Repr

/-- Space-joining of a list of strings (Rust `Vec::join(" ")`). -/
def joinSpace : List String → String
  | [] => ""
  | [s] => s
  | s :: rest => s ++ " " ++ joinSpace rest

/-- Serialization of a command to a single command line
(source: `command_to_string`). -/
def command_to_string (c : Cmd) : String :=
  joinSpace (c.program :: c.args)

/-! ## Command building -/

def SSH_DEFAULT_TIMEOUT : Nat := 10

def VFS_TYPE_SSHFS : String := "fuse.sshfs"

/-- The inner `ssh` transport invocation built by `mount_commands`
(source: the `cmd_ssh` value). Note that in the `PublicKey` and catch-all
arms each `-o ...`/`-i ...` clause is pushed as a single argument
containing a space, exactly as the source's `format!` calls do. -/
def ssh_command (d : FilesystemMountDefinition) : Cmd :=
  let baseArgs := ["-p", toString d.port, "-o",
    "ConnectTimeout=" ++ toString SSH_DEFAULT_TIMEOUT]
  let authArgs :=
    match d.auth_type with
    | .PublicKey =>
        ["-o PreferredAuthentications=" ++ AuthType.PublicKey.to_static_str,
         "-i " ++ d.ssh_key]
    | .AuthenticationAgent =>
        -- No key and no preferred authentication: delegate to an SSH agent.
        []
    | any_other =>
        ["-o PreferredAuthentications=" ++ any_other.to_static_str]
  ⟨"ssh", baseArgs ++ authArgs⟩

/-- The `sshfs` helper invocation built by `mount_commands`
(source: the `cmd_sshfs` value). -/
def sshfs_command (d : FilesystemMountDefinition) : Cmd :=
  ⟨"sshfs",
    (d.mount_options.map (fun opt => ["-o", opt])).flatten
      ++ ["-o", "ssh_command=" ++ command_to_string (ssh_command d),
          connection_target d,
          local_mount_path d]⟩

inductive Err where
  | generic (msg : String)
  | mountVfsTypeMismatch (path found_vfs_type expected_vfs_type : String)
  | mountCommandBuilding (msg : String)
  | commandExecution (c : Cmd)
  | commandUnsuccessful (c : Cmd)
  | io (path : String)
  | json (path : String) (msg : String)
deriving DecidableEq, Repr

/-- Splitting of a character list on every single space character, keeping
empty pieces; the list-level meaning of Rust's `str::split(' ')`. -/
def splitChars : List Char → List (List Char)
  | [] => [[]]
  | c :: rest =>
      if c = ' ' then [] :: splitChars rest
      else
        match splitChars rest with
        | [] => [[c]]
        | g :: gs => (c :: g) :: gs

/-- Splitting of a string on single spaces (Rust `split(' ')`): every space
is a separator and empty pieces are kept, so `""` gives `[""]` and a leading
space gives a leading `""`. -/
def split_on_spaces (s : String) : List String :=
  (splitChars s.data).map (fun cs => String.mk cs)

/-- Mount command list (source: `mount_commands`). A non-empty, non-sentinel
before-mount command is split on single spaces; an empty program name is a
build error. The `ssh`/`sshfs` construction is factored into `ssh_command`
and `sshfs_command` above. -/
def mount_commands (d : FilesystemMountDefinition) :
    Except Err (List Cmd) :=
  let before : Except Err (List Cmd) :=
    if d.cmd_before_mount = "" then .ok []
    else if d.cmd_before_mount = "/bin/true" ∨ d.cmd_before_mount = "true" then
      -- Recognized no-op sentinels are skipped.
      .ok []
    else
      match split_on_spaces d.cmd_before_mount with
      | [] =>
          -- `split_on_spaces` never returns `[]`; kept for totality.
          .error (.mountCommandBuilding
            ("could not extract program name from " ++ d.cmd_before_mount))
      | program_name :: args =>
          if program_name = "" then
            .error (.mountCommandBuilding
              ("could not extract program name from " ++ d.cmd_before_mount))
          else
            .ok [⟨program_name, args⟩]
  match before with
  | .error e => .error e
  | .ok bs => .ok (bs ++ [sshfs_command d])

/-- Unmount command list (source: `umount_commands`): a single
`fusermount -u <local mount path>` invocation. -/
def umount_commands (d : FilesystemMountDefinition) :
    Except Err (List Cmd) :=
  .ok [⟨"fusermount", ["-u", local_mount_path d]⟩]

/-! ## JSON serialization (serde wire format, modelled at the JSON-value level)

`to_json_string`/`from_json_string` go through `serde_json`; faithfulness of
JSON text printing/parsing is assumed, and serialization is modelled as a
function to/from JSON values. -/

inductive Json where
  | null
  | str (s : String)
  | num (n : Nat)
  | arr (xs : List Json)
  | obj (fields : List (String × Json))

/-- Serialization (source: `to_json_string` via serde derive): fields in
declaration order under their wire names; `mount_dest_path = None` becomes
`null`; `auth_type` is encoded with `to_static_str`. -/
def to_json (d : FilesystemMountDefinition) : Json :=
  .obj
    [("id", .str d.id),
     ("host", .str d.host),
     ("port", .num d.port),
     ("user", .str d.user),
     ("mountOptions", .arr (d.mount_options.map .str)),
     ("mountPoint", .str d.remote_path),
     ("mountDestPath",
        match d.mount_dest_path with
        | some p => .str p
        | none => .null),
     ("beforeMount", .str d.cmd_before_mount),
     ("authType", .str d.auth_type.to_static_str),
     ("sshKey", .str d.ssh_key)]

def getField (fields : List (String × Json)) (k : String) : Option Json :=
  (fields.find? (fun f => f.1 = k)).map (fun f => f.2)

/-- Required string field. -/
def reqStr (fields : List (String × Json)) (k : String) :
    Except String String :=
  match getField fields k with
  | some (.str s) => .ok s
  | some _ => .error ("invalid type for field " ++ k)
  | none => .error ("missing field " ++ k)

/-- Required `u16` field (serde rejects out-of-range numbers). -/
def reqU16 (fields : List (String × Json)) (k : String) :
    Except String Nat :=
  match getField fields k with
  | some (.num n) => if n < 65536 then .ok n else .error ("out of range " ++ k)
  | some _ => .error ("invalid type for field " ++ k)
  | none => .error ("missing field " ++ k)

def decodeStrings : List Json → Except String (List String)
  | [] => .ok []
  | .str s :: rest =>
      match decodeStrings rest with
      | .ok ss => .ok (s :: ss)
      | .error e => .error e
  | _ :: _ => .error "expected string element"

/-- Required list-of-strings field. -/
def reqStrList (fields : List (String × Json)) (k : String) :
    Except String (List String) :=
  match getField fields k with
  | some (.arr xs) => decodeStrings xs
  | some _ => .error ("invalid type for field " ++ k)
  | none => .error ("missing field " ++ k)

/-- Optional string field (serde: a missing `Option` field and an explicit
`null` both deserialize to `None`). -/
def optStr (fields : List (String × Json)) (k : String) :
    Except String (Option String) :=
  match getField fields k with
  | some (.str s) => .ok (some s)
  | some .null => .ok none
  | some _ => .error ("invalid type for field " ++ k)
  | none => .ok none

/-- Defaulted string field (serde `#[serde(default)]`: missing becomes `""`). -/
def defStr (fields : List (String × Json)) (k : String) :
    Except String String :=
  match getField fields k with
  | some (.str s) => .ok s
  | some _ => .error ("invalid type for field " ++ k)
  | none => .ok ""

/-- Deserialization (source: `from_json_string` via serde derive,
with `deserialize_auth_type_from_string` for `authType`). -/
def from_json (j : Json) : Except String FilesystemMountDefinition :=
  match j with
  | .obj fields => do
      let id ← reqStr fields "id"
      let host ← reqStr fields "host"
      let port ← reqU16 fields "port"
      let user ← reqStr fields "user"
      let mount_options ← reqStrList fields "mountOptions"
      let remote_path ← reqStr fields "mountPoint"
      let mount_dest_path ← optStr fields "mountDestPath"
      let cmd_before_mount ← defStr fields "beforeMount"
      let auth_type ← AuthType.from_string (← reqStr fields "authType")
      let ssh_key ← reqStr fields "sshKey"
      pure ⟨id, host, port, user, mount_options, remote_path,
            mount_dest_path, cmd_before_mount, auth_type, ssh_key⟩
  | _ => .error "expected object"

/-! ## Process discovery and termination (src/utils/process.rs) -/

/-- An OS process as seen by the process enumeration: its pid and its
command line (`none` models a per-process `cmdline()` read error, which the
source skips via `if let Ok`). -/
structure ProcEntry where
  pid : Int
  cmdline : Option (List String)
deriving DecidableEq, Repr

/-- The scanning loop of `sshfs_pid_by_definition`: the program name is
taken to be the first command-line word only when the command line has more
than one element; the process matches when the program is `sshfs` and some
argument equals the definition's connection target. -/
def findPid (d : FilesystemMountDefinition) :
    List ProcEntry → Option Int
  | [] => none
  | p :: rest =>
      match p.cmdline with
      | none => findPid d rest
      | some cmd_line =>
          let program := if cmd_line.length > 1 then cmd_line.headD "" else ""
          if program ≠ "sshfs" then findPid d rest
          else if connection_target d ∈ cmd_line then some p.pid
          else findPid d rest

/-- Lookup of the sshfs helper pid (source: `sshfs_pid_by_definition`); the
argument is the outcome of the OS process enumeration. -/
def sshfs_pid_by_definition (d : FilesystemMountDefinition)
    (processes : Except String (List ProcEntry)) :
    Except Err (Option Int) :=
  match processes with
  | .error e => .error (.generic ("failed to list processes: " ++ e))
  | .ok ps => .ok (findPid d ps)

/-- The environment's answers to one run of the kill sequence:
whether each signal send succeeds (the source only logs failures), and the
two liveness-check results (`none` models a check error). -/
structure KillBehavior where
  termSendOk : Bool
  alive1 : Option Bool
  killSendOk : Bool
  alive2 : Option Bool
deriving DecidableEq, Repr

/-- Externally visible actions performed by the engine, in order. -/
inductive Event where
  | ran (c : Cmd)
  | ensureDirCall (path : String)
  | removeDirCall (path : String)
  | wroteFile (path : String) (d : FilesystemMountDefinition)
  | sentTerm (pid : Int)
  | slept (ms : Nat)
  | sentKill (pid : Int)
deriving DecidableEq, Repr

/-- The graceful-then-forceful kill sequence (source:
`ensure_process_killed`). Signal-send failures are only logged. Note that
the second sleep in the source is `thread::sleep(wait_time_before_dead_check)`
— it reuses the first duration, and `wait_time_before_forcefully_killing`
only appears in a log message. -/
def ensure_process_killed (pid : Int)
    (wait_time_before_dead_check wait_time_before_forcefully_killing : Nat)
    (k : KillBehavior) : Except Err Unit × List Event :=
  let _ := wait_time_before_forcefully_killing
  let _ := k.termSendOk
  let _ := k.killSendOk
  let ev1 : List Event := [.sentTerm pid, .slept wait_time_before_dead_check]
  match k.alive1 with
  | some false => (.ok (), ev1)
  | _ =>
      -- still alive, or the liveness check errored: escalate.
      let ev2 := ev1 ++ [.slept wait_time_before_dead_check, .sentKill pid]
      match k.alive2 with
      | some false => (.ok (), ev2)
      | none => (.ok (), ev2)
      | some true =>
          (.error (.generic "Ultimately failed to kill process"), ev2)

/-! ## Mount table (src/utils/fs.rs) -/

/-- One OS mount-table entry: the mounted path (`file`) and the filesystem
type tag (`vfstype`). -/
structure MountEntry where
  file : String
  vfstype : String
deriving DecidableEq, Repr

/-! ## The environment

Each external query kind has its own stream of answers, consumed in call
order; an exhausted stream answers with a fixed default. -/

/-- Outcome of one `run_command` call: the process ran and exited zero,
failed to start (`CommandExecution`), or exited non-zero
(`CommandUnsuccessful`). -/
inductive RunOutcome where
  | success
  | startFailure
  | exitFailure
deriving DecidableEq, Repr

structure St where
  /-- successive answers of the OS mount table, one full table per read. -/
  tables : List (List MountEntry)
  /-- successive outcomes of `run_command` calls. -/
  cmdOutcomes : List RunOutcome
  /-- successive outcomes of directory create/remove calls. -/
  dirOk : List Bool
  /-- successive outcomes of OS process enumerations. -/
  procs : List (Except String (List ProcEntry))
  /-- successive behaviors of kill-sequence runs. -/
  kills : List KillBehavior
  /-- the stored record for the relevant id (`Manager::definition`). -/
  config : Option FilesystemMountDefinition
  /-- whether the mounts config directory exists. -/
  configDirExists : Bool
  /-- outcome of creating the config directory when missing. -/
  createDirOk : Bool
  /-- outcome of `fs::write` of the serialized record. -/
  writeOk : Bool
deriving Repr

def popTable (st : St) : List MountEntry × St :=
  (st.tables.headD [], { st with tables := st.tables.tail })

def popCmd (st : St) : RunOutcome × St :=
  (st.cmdOutcomes.headD .startFailure, { st with cmdOutcomes := st.cmdOutcomes.tail })

def popDir (st : St) : Bool × St :=
  (st.dirOk.headD false, { st with dirOk := st.dirOk.tail })

def popProcs (st : St) : Except String (List ProcEntry) × St :=
  (st.procs.headD (.ok []), { st with procs := st.procs.tail })

def defaultKill : KillBehavior := ⟨true, some false, true, some false⟩

def popKill (st : St) : KillBehavior × St :=
  (st.kills.headD defaultKill, { st with kills := st.kills.tail })

/-- Mount-table query under a path (source:
`get_mounts_under_path_prefix`, wrapping `mnt::get_submounts`): one table
read, restricted to entries whose mounted path extends the queried path. -/
def get_mounts_under_path (p : String) (st : St) :
    List MountEntry × St :=
  let (table, st) := popTable st
  (table.filter (fun m => p.data.isPrefixOf m.file.data), st)

/-- Execution of one external command (source: `run_command`). -/
def run_command (c : Cmd) (st : St) : Except Err Unit × St × List Event :=
  let (o, st) := popCmd st
  (match o with
   | .success => .ok ()
   | .startFailure => .error (.commandExecution c)
   | .exitFailure => .error (.commandUnsuccessful c),
   st, [.ran c])

/-- Recursive creation of the local mount directory (source:
`ensure_directory_recursively_created`). -/
def ensure_directory_recursively_created (path : String) (st : St) :
    Except Err Unit × St × List Event :=
  let (ok, st) := popDir st
  ((if ok then .ok () else .error (.io path)), st, [.ensureDirCall path])

/-! ## Manager operations (src/manager.rs) -/

/-- The scanning loop of `is_definition_mounted` over the queried entries:
entries not exactly at the local mount path are skipped; the first entry at
the path decides — wrong filesystem type is a hard error, otherwise the
definition is mounted. -/
def isMountedLoop (local_path : String) :
    List MountEntry → Except Err Bool
  | [] => .ok false
  | m :: rest =>
      if m.file ≠ local_path then isMountedLoop local_path rest
      else if m.vfstype ≠ VFS_TYPE_SSHFS then
        .error (.mountVfsTypeMismatch local_path m.vfstype VFS_TYPE_SSHFS)
      else .ok true

/-- Mounted-state query (source: `Manager::is_definition_mounted`). -/
def is_definition_mounted (d : FilesystemMountDefinition) (st : St) :
    Except Err Bool × St :=
  let p := local_mount_path d
  let (mounts, st) := get_mounts_under_path p st
  (isMountedLoop p mounts, st)

/-- Best-effort removal of the local mount directory (source:
`Manager::clean_up_after_unmount`); its own failure is only logged. -/
def clean_up_after_unmount (d : FilesystemMountDefinition) (st : St) :
    St × List Event :=
  let (_, st) := popDir st
  (st, [.removeDirCall (local_mount_path d)])

/-- The command loop of `do_umount`: on a command failure, clean up
(best effort) and return the error. -/
def runUmountLoop (d : FilesystemMountDefinition) :
    List Cmd → St → Except Err Unit × St × List Event
  | [], st => (.ok (), st, [])
  | c :: rest, st =>
      let (r, st, ev) := run_command c st
      match r with
      | .ok _ =>
          let (r', st', ev') := runUmountLoop d rest st
          (r', st', ev ++ ev')
      | .error e =>
          let (st', evC) := clean_up_after_unmount d st
          (.error e, st', ev ++ evC)

/-- Unmount-command execution (source: `Manager::do_umount`); the
`umount_commands().unwrap()` in the source cannot fire since
`umount_commands` always returns `Ok`, so the error arm here is dead. -/
def do_umount (d : FilesystemMountDefinition) (st : St) :
    Except Err Unit × St × List Event :=
  match umount_commands d with
  | .error e => (.error e, st, [])
  | .ok cmds =>
      match runUmountLoop d cmds st with
      | (.ok _, st, ev) =>
          let (st', evC) := clean_up_after_unmount d st
          (.ok (), st', ev ++ evC)
      | (.error e, st, ev) => (.error e, st, ev)

/-- Location and termination of the sshfs helper process (source:
`Manager::kill_sshfs_for_definition`), with the source's concrete wait
durations of 500 and 2000 milliseconds. -/
def kill_sshfs_for_definition (d : FilesystemMountDefinition) (st : St) :
    Except Err Unit × St × List Event :=
  let (pr, st) := popProcs st
  match sshfs_pid_by_definition d pr with
  | .error e => (.error e, st, [])
  | .ok none =>
      (.error (.generic ("Failed to determine pid for: " ++ d.id)), st, [])
  | .ok (some pid) =>
      let (k, st) := popKill st
      let (r, ev) := ensure_process_killed pid 500 2000 k
      (r, st, ev)

/-- Unmount operation (source: `Manager::umount`): no-op when not mounted;
on unmount-command failure, fall back to killing the helper process, treat a
successful kill as sufficient (no second unmount command), and clean up. -/
def umount (d : FilesystemMountDefinition) (st : St) :
    Except Err Unit × St × List Event :=
  match is_definition_mounted d st with
  | (.error e, st) => (.error e, st, [])
  | (.ok false, st) => (.ok (), st, [])
  | (.ok true, st) =>
      match do_umount d st with
      | (.ok _, st, ev) => (.ok (), st, ev)
      | (.error _, st, ev) =>
          match kill_sshfs_for_definition d st with
          | (.error e, st, evK) => (.error e, st, ev ++ evK)
          | (.ok _, st, evK) =>
              let (st, evC) := clean_up_after_unmount d st
              (.ok (), st, ev ++ evK ++ evC)

/-- Result of an operation that may abort: the source's `mount` unwraps the
command-building result, so a build failure is a panic, not an error. -/
inductive RunResult where
  | ok
  | err (e : Err)
  | panicked
deriving DecidableEq, Repr

/-- The command loop of `mount`: on a command failure, attempt a best-effort
unmount (its own result discarded), clean up the local directory (best
effort), and return the original error. -/
def runMountLoop (d : FilesystemMountDefinition) :
    List Cmd → St → RunResult × St × List Event
  | [], st => (.ok, st, [])
  | c :: rest, st =>
      let (r, st, ev) := run_command c st
      match r with
      | .ok _ =>
          let (r', st', ev') := runMountLoop d rest st
          (r', st', ev ++ ev')
      | .error e =>
          let (_, st, evU) := umount d st
          let (st, evC) := clean_up_after_unmount d st
          (.err e, st, ev ++ evU ++ evC)

/-- Mount operation (source: `Manager::mount`): no-op when already mounted;
otherwise create the local directory, build the commands — the source calls
`.unwrap()` here, so a build error aborts — and run them in order. -/
def mount (d : FilesystemMountDefinition) (st : St) :
    RunResult × St × List Event :=
  match is_definition_mounted d st with
  | (.error e, st) => (.err e, st, [])
  | (.ok true, st) => (.ok, st, [])
  | (.ok false, st) =>
      match ensure_directory_recursively_created (local_mount_path d) st with
      | (.error e, st, ev) => (.err e, st, ev)
      | (.ok _, st, ev1) =>
          match mount_commands d with
          | .error _ => (.panicked, st, ev1)
          | .ok cmds =>
              let (r, st, ev2) := runMountLoop d cmds st
              (r, st, ev1 ++ ev2)

def config_path_for_definition_id (root id : String) : String :=
  root ++ "/mounts/" ++ id ++ ".json"

/-- The tail of `persist` after the existing-and-mounted handling: ensure
the config directory, serialize and write (both fatal on failure), then
remount when the definition was mounted before the call (remount errors are
only logged, but a remount panic aborts). -/
def persistWrite (path : String) (d : FilesystemMountDefinition)
    (was_mounted : Bool) (st : St) (ev0 : List Event) :
    RunResult × St × List Event :=
  if st.configDirExists = false ∧ st.createDirOk = false then
    (.err (.io path), st, ev0)
  else if st.writeOk = false then
    (.err (.io path), st, ev0)
  else
    let ev1 := ev0 ++ [.wroteFile path d]
    if was_mounted then
      match mount d st with
      | (.panicked, st, evM) => (.panicked, st, ev1 ++ evM)
      | (_, st, evM) => (.ok, st, ev1 ++ evM)
    else (.ok, st, ev1)

/-- Persist operation (source: `Manager::persist`): when a record with the
same id exists and is currently mounted, unmount the old definition first
(errors logged); the mounted-state check itself propagates its error.
`cfgRoot` is the Manager's (constant) config directory path. -/
def persist (cfgRoot : String) (d : FilesystemMountDefinition) (st : St) :
    RunResult × St × List Event :=
  let path := config_path_for_definition_id cfgRoot d.id
  match st.config with
  | some old =>
      match is_definition_mounted old st with
      | (.error e, st) => (.err e, st, [])
      | (.ok mounted, st) =>
          if mounted then
            let (_, st, evU) := umount old st
            persistWrite path d true st evU
          else
            persistWrite path d false st []
  | none => persistWrite path d false st []

/-- The answer a single mount-table read gives to "is this definition
mounted", as a function of the full table supplied by the environment. -/
def mounted_answer (d : FilesystemMountDefinition)
    (table : List MountEntry) : Except Err Bool :=
  isMountedLoop (local_mount_path d)
    (table.filter
      (fun m => (local_mount_path d).data.isPrefixOf m.file.data))

/-- Number of external-command executions in a trace. -/
def countRan (evs : List Event) : Nat :=
  (evs.filter (fun e => match e with | .ran _ => true | _ => false)).length

/-- The write events of a trace, with the definition whose serialization
was written. -/
def writesOf (evs : List Event) :
    List (String × FilesystemMountDefinition) :=
  evs.filterMap (fun e =>
    match e with
    | .wroteFile p d => some (p, d)
    | _ => none)

/-- Modelled from the claim's words (C6): the authentication clause of the
built SSH invocation, by `authType`. -/
def spec_auth_args (d : FilesystemMountDefinition) : List String :=
  match d.auth_type with
  | .PublicKey =>
      ["-o PreferredAuthentications=publickey", "-i " ++ d.ssh_key]
  | .AuthenticationAgent => []
  | other => ["-o PreferredAuthentications=" ++ other.to_static_str]

/-- The error `run_command` produces for outcome `o` of command `c`
(the `success` arm is never consulted). -/
def errAt (o : RunOutcome) (c : Cmd) : Err :=
  match o with
  | .success => .generic ""
  | .startFailure => .commandExecution c
  | .exitFailure => .commandUnsuccessful c

/-- Equality of the environment fields that the manager operations read but
never pop: the stored record, the config-directory flags, and the write
outcome. -/
def SameStatic (a b : St) : Prop :=
  a.config = b.config ∧ a.configDirExists = b.configDirExists ∧
  a.createDirOk = b.createDirOk ∧ a.writeOk = b.writeOk

/-! ## Concrete sample inputs used by witnesses and counterexamples -/

def c1_def : FilesystemMountDefinition :=
  ⟨"x", "h", 22, "u", [], "/r", none, "", .AuthenticationAgent, ""⟩

/-- Environment for the C1 witness: mounted, the unmount command fails,
one matching sshfs process with pid 7, and the kill sequence succeeds. -/
def c1_st : St :=
  ⟨[[⟨"/mnt/sshfs/x", "fuse.sshfs"⟩]], [.exitFailure], [true, true],
   [.ok [⟨7, some ["sshfs", "u@[h]:/r", "/mnt/sshfs/x"]⟩]],
   [⟨true, some false, true, some false⟩], none, true, true, true⟩

def c2_def : FilesystemMountDefinition :=
  ⟨"c2", "h", 22, "u", [], "/r", none, "", .AuthenticationAgent, ""⟩

/-- Environment for the C2 witness: not mounted, the directory is created,
and the first (only) mount command exits non-zero; the cleanup-unmount's
own queries then see an unmounted state. -/
def c2_st : St :=
  ⟨[[], []], [.exitFailure], [true, true], [], [], none, true, true, true⟩

def c3_old : FilesystemMountDefinition :=
  ⟨"srv", "old.example.com", 22, "bob", [], "/data", none, "",
   .AuthenticationAgent, ""⟩

/-- A definition whose before-mount command starts with a space, so that
its mount-command building fails. -/
def c3_new : FilesystemMountDefinition :=
  ⟨"srv", "new.example.com", 22, "bob", [], "/data", none, " x",
   .AuthenticationAgent, ""⟩

/-- Environment for the C3 counterexample: the old record exists and is
mounted, the write succeeds, and the remount reaches command building. -/
def c3_st : St :=
  ⟨[[⟨"/mnt/sshfs/srv", "fuse.sshfs"⟩], [], []], [], [true],
   [], [], some c3_old, true, true, true⟩

def c3w_new : FilesystemMountDefinition :=
  ⟨"srv", "new.example.com", 22, "bob", [], "/data", none, "",
   .AuthenticationAgent, ""⟩

/-- Environment for the C3 witness: the old record exists and is mounted,
the write succeeds, and the remount runs its mount command successfully. -/
def c3w_st : St :=
  ⟨[[⟨"/mnt/sshfs/srv", "fuse.sshfs"⟩], [], []], [.success], [true],
   [], [], some c3_old, true, true, true⟩

def c5_def : FilesystemMountDefinition :=
  ⟨"x", "h", 22, "u", [], "/r", none, "", .AuthenticationAgent, ""⟩

/-- A mount table with two entries at the same path (an overmount): the
sshfs one first, a foreign one second. -/
def c5_table : List MountEntry :=
  [⟨"/mnt/sshfs/x", "fuse.sshfs"⟩, ⟨"/mnt/sshfs/x", "ext4"⟩]

def c5_st : St := ⟨[c5_table], [], [], [], [], none, true, true, true⟩

def c6_def : FilesystemMountDefinition :=
  ⟨"srv", "example.com", 2222, "bob", ["follow_symlinks", "rename"],
   "/data", none, "", .PublicKey, "/home/bob/.ssh/id_ed25519"⟩

def c8_def : FilesystemMountDefinition :=
  ⟨"x", "h", 22, "u", [], "/r", none, "", .AuthenticationAgent, ""⟩

def c8_table : List MountEntry := [⟨"/mnt/sshfs/x", "fuse.sshfs"⟩]

def c8_stA : St :=
  ⟨[c8_table, c8_table], [], [], [], [], none, true, true, true⟩

def c8_stB : St := ⟨[[], []], [], [], [], [], none, true, true, true⟩

def c9_def : FilesystemMountDefinition :=
  ⟨"srv", "example.com", 2222, "bob", ["follow_symlinks", "follow_symlinks"],
   "/data", some "/home/bob/data", "echo hi", .KeyboardInteractive, ""⟩

def c10_def : FilesystemMountDefinition :=
  ⟨"bad", "h", 22, "u", [], "/r", none, " echo hi", .AuthenticationAgent, ""⟩

/-- Environment for C10: not mounted, directory creation succeeds, so
`mount` reaches the unwrapped command-building step. -/
def c10_st : St := ⟨[[]], [], [true], [], [], none, true, true, true⟩

/-! ## Helper lemmas -/

lemma countRan_append (a b : List Event) :
    countRan (a ++ b) = countRan a + countRan b := by
  simp [countRan, List.filter_append]

lemma countRan_kill (pid : Int) (w1 w2 : Nat) (k : KillBehavior) :
    countRan (ensure_process_killed pid w1 w2 k).2 = 0 := by
  rcases k with ⟨t, a1, ko, a2⟩
  rcases a1 with _ | b1
  · rcases a2 with _ | b2
    · rfl
    · cases b2 <;> rfl
  · cases b1
    · rfl
    · rcases a2 with _ | b2
      · rfl
      · cases b2 <;> rfl

lemma isMountedLoop_eq_find (p : String) (l : List MountEntry) :
    isMountedLoop p l =
      match l.find? (fun m => m.file = p) with
      | none => .ok false
      | some m =>
          if m.vfstype = VFS_TYPE_SSHFS then .ok true
          else .error (.mountVfsTypeMismatch p m.vfstype VFS_TYPE_SSHFS) := by
  induction l with
  | nil => rfl
  | cons m rest ih =>
      by_cases hf : m.file = p
      · by_cases hv : m.vfstype = VFS_TYPE_SSHFS <;>
          simp [isMountedLoop, List.find?, hf, hv]
      · simp [isMountedLoop, List.find?, hf, ih]

lemma find_file_filter (p : String) (l : List MountEntry) :
    (l.filter (fun m => p.data.isPrefixOf m.file.data)).find?
        (fun m => m.file = p)
      = l.find? (fun m => m.file = p) := by
  induction l with
  | nil => rfl
  | cons m rest ih =>
      by_cases hf : m.file = p
      · have hp : p.data.isPrefixOf p.data = true := by
          simp [List.isPrefixOf_iff_prefix]
        simp [List.filter, hf, hp, List.find?]
      · by_cases hp : p.data.isPrefixOf m.file.data <;>
          simp [List.filter, hp, List.find?, hf, ih]

lemma is_definition_mounted_eq (d : FilesystemMountDefinition) (st : St) :
    is_definition_mounted d st =
      (mounted_answer d (st.tables.headD []),
       { st with tables := st.tables.tail }) := rfl

lemma from_string_to_static_str (a : AuthType) :
    AuthType.from_string a.to_static_str = .ok a := by
  cases a <;> rfl

lemma decodeStrings_map_str (l : List String) :
    decodeStrings (l.map Json.str) = .ok l := by
  induction l with
  | nil => rfl
  | cons s rest ih => simp [decodeStrings, ih]

lemma getLast_append_singleton {α : Type} (l : List α) (a : α) :
    (l ++ [a]).getLast? = some a := by
  induction l with
  | nil => rfl
  | cons x xs ih => simp [List.getLast?_cons, ih]

lemma mount_commands_ok_last (d : FilesystemMountDefinition)
    (cmds : List Cmd) (h : mount_commands d = .ok cmds) :
    cmds.getLast? = some (sshfs_command d) := by
  simp only [mount_commands] at h
  split at h
  · cases h
  · rename_i bs hbs
    cases h
    exact getLast_append_singleton bs (sshfs_command d)

lemma runMountLoop_fail (d : FilesystemMountDefinition) :
    ∀ (k : Nat) (cmds : List Cmd) (st : St),
      (∀ i, i < k → st.cmdOutcomes.getD i .startFailure = .success) →
      k < cmds.length →
      st.cmdOutcomes.getD k .startFailure ≠ .success →
      runMountLoop d cmds st =
        (.err (errAt (st.cmdOutcomes.getD k .startFailure)
                 (cmds.getD k ⟨"", []⟩)),
         (clean_up_after_unmount d
            (umount d
              { st with cmdOutcomes := st.cmdOutcomes.drop (k+1) }).2.1).1,
         ((cmds.take (k+1)).map .ran)
           ++ (umount d
                { st with cmdOutcomes := st.cmdOutcomes.drop (k+1) }).2.2
           ++ [.removeDirCall (local_mount_path d)]) := by
  intro k
  induction k with
  | zero =>
      intro cmds st hsucc hk hfail
      rcases cmds with _ | ⟨c, rest⟩
      · exact absurd hk (by simp)
      obtain ⟨ts, cs, ds, ps, ks, cfg, cde, cdo, wo⟩ := st
      rcases cs with _ | ⟨o, cs'⟩
      · simp only [runMountLoop, run_command, popCmd, List.headD_nil,
          List.tail, List.getD, List.take, List.map, List.drop] at hfail ⊢
        simp [errAt, clean_up_after_unmount, popDir]
      · rcases o with _ | _ | _
        · exact absurd rfl hfail
        all_goals
          simp [runMountLoop, run_command, popCmd, errAt, List.getD,
            clean_up_after_unmount, popDir]
  | succ k ih =>
      intro cmds st hsucc hk hfail
      rcases cmds with _ | ⟨c, rest⟩
      · exact absurd hk (by simp)
      obtain ⟨ts, cs, ds, ps, ks, cfg, cde, cdo, wo⟩ := st
      rcases cs with _ | ⟨o, cs'⟩
      · exact absurd (hsucc 0 (Nat.succ_pos k)) (by simp [List.getD])
      have ho : o = .success := by
        have := hsucc 0 (Nat.succ_pos k)
        simpa [List.getD] using this
      subst ho
      have ih' := ih rest
        ⟨ts, cs', ds, ps, ks, cfg, cde, cdo, wo⟩
        (by
          intro i hi
          have := hsucc (i+1) (Nat.succ_lt_succ hi)
          simpa [List.getD] using this)
        (by simpa using hk)
        (by simpa [List.getD] using hfail)
      simp only [runMountLoop, run_command, popCmd, List.headD_cons,
        List.tail]
      simp only [List.getD_cons_succ] at ih' ⊢
      rw [ih']
      simp [List.take, List.drop]

lemma sameStatic_trans {a b c : St} (h1 : SameStatic a b)
    (h2 : SameStatic b c) : SameStatic a c := by
  obtain ⟨x1, x2, x3, x4⟩ := h1
  obtain ⟨y1, y2, y3, y4⟩ := h2
  exact ⟨x1.trans y1, x2.trans y2, x3.trans y3, x4.trans y4⟩

lemma run_command_frame (c : Cmd) (st : St) :
    SameStatic (run_command c st).2.1 st ∧
    writesOf (run_command c st).2.2 = [] :=
  ⟨⟨rfl, rfl, rfl, rfl⟩, rfl⟩

lemma clean_up_frame (d : FilesystemMountDefinition) (st : St) :
    SameStatic (clean_up_after_unmount d st).1 st ∧
    writesOf (clean_up_after_unmount d st).2 = [] :=
  ⟨⟨rfl, rfl, rfl, rfl⟩, rfl⟩

lemma writesOf_append (a b : List Event) :
    writesOf (a ++ b) = writesOf a ++ writesOf b := by
  simp [writesOf, List.filterMap_append]

lemma kill_events_writes (pid : Int) (w1 w2 : Nat) (k : KillBehavior) :
    writesOf (ensure_process_killed pid w1 w2 k).2 = [] := by
  rcases k with ⟨t, a1, ko, a2⟩
  rcases a1 with _ | b1
  · rcases a2 with _ | b2
    · rfl
    · cases b2 <;> rfl
  · cases b1
    · rfl
    · rcases a2 with _ | b2
      · rfl
      · cases b2 <;> rfl

lemma runUmountLoop_frame (d : FilesystemMountDefinition) :
    ∀ (cmds : List Cmd) (st : St),
      SameStatic (runUmountLoop d cmds st).2.1 st ∧
      writesOf (runUmountLoop d cmds st).2.2 = [] := by
  intro cmds
  induction cmds with
  | nil => exact fun st => ⟨⟨rfl, rfl, rfl, rfl⟩, rfl⟩
  | cons c rest ih =>
      intro st
      simp only [runUmountLoop]
      rcases h1 : run_command c st with ⟨r1, st1, ev1⟩
      have f1 : SameStatic st1 st ∧ writesOf ev1 = [] := by
        have := run_command_frame c st
        rw [h1] at this
        exact this
      cases r1 with
      | ok _ =>
          rcases h2 : runUmountLoop d rest st1 with ⟨r2, st2, ev2⟩
          have f2 : SameStatic st2 st1 ∧ writesOf ev2 = [] := by
            have := ih st1
            rw [h2] at this
            exact this
          exact ⟨sameStatic_trans f2.1 f1.1,
            by simp [writesOf_append, f1.2, f2.2]⟩
      | error e =>
          rcases h2 : clean_up_after_unmount d st1 with ⟨st2, ev2⟩
          have f2 : SameStatic st2 st1 ∧ writesOf ev2 = [] := by
            have := clean_up_frame d st1
            rw [h2] at this
            exact this
          exact ⟨sameStatic_trans f2.1 f1.1,
            by simp [writesOf_append, f1.2, f2.2]⟩

lemma do_umount_frame (d : FilesystemMountDefinition) (st : St) :
    SameStatic (do_umount d st).2.1 st ∧
    writesOf (do_umount d st).2.2 = [] := by
  simp only [do_umount, umount_commands]
  rcases h1 : runUmountLoop d [⟨"fusermount", ["-u", local_mount_path d]⟩] st
    with ⟨r1, st1, ev1⟩
  have f1 : SameStatic st1 st ∧ writesOf ev1 = [] := by
    have := runUmountLoop_frame d
      [⟨"fusermount", ["-u", local_mount_path d]⟩] st
    rw [h1] at this
    exact this
  cases r1 with
  | ok _ =>
      dsimp only
      refine ⟨sameStatic_trans ?_ f1.1, ?_⟩
      · exact (clean_up_frame d st1).1
      · simp [writesOf_append, f1.2, (clean_up_frame d st1).2]
  | error e => exact f1

lemma kill_sshfs_frame (d : FilesystemMountDefinition) (st : St) :
    SameStatic (kill_sshfs_for_definition d st).2.1 st ∧
    writesOf (kill_sshfs_for_definition d st).2.2 = [] := by
  simp only [kill_sshfs_for_definition, popProcs, popKill]
  rcases h : sshfs_pid_by_definition d (st.procs.headD (.ok []))
    with e | po
  · exact ⟨⟨rfl, rfl, rfl, rfl⟩, rfl⟩
  · rcases po with _ | pid
    · exact ⟨⟨rfl, rfl, rfl, rfl⟩, rfl⟩
    · dsimp only
      refine ⟨⟨rfl, rfl, rfl, rfl⟩, ?_⟩
      exact kill_events_writes pid 500 2000 _

lemma is_definition_mounted_frame (d : FilesystemMountDefinition)
    (st : St) : SameStatic (is_definition_mounted d st).2 st :=
  ⟨rfl, rfl, rfl, rfl⟩

lemma umount_frame (d : FilesystemMountDefinition) (st : St) :
    SameStatic (umount d st).2.1 st ∧
    writesOf (umount d st).2.2 = [] := by
  simp only [umount]
  rcases h1 : is_definition_mounted d st with ⟨r1, st1⟩
  have f1 : SameStatic st1 st := by
    have := is_definition_mounted_frame d st
    rw [h1] at this
    exact this
  rcases r1 with e | b
  · exact ⟨f1, rfl⟩
  · cases b
    · exact ⟨f1, rfl⟩
    · dsimp only
      rcases h2 : do_umount d st1 with ⟨r2, st2, ev2⟩
      have f2 : SameStatic st2 st1 ∧ writesOf ev2 = [] := by
        have := do_umount_frame d st1
        rw [h2] at this
        exact this
      rcases r2 with e2 | u2
      · dsimp only
        rcases h3 : kill_sshfs_for_definition d st2 with ⟨r3, st3, ev3⟩
        have f3 : SameStatic st3 st2 ∧ writesOf ev3 = [] := by
          have := kill_sshfs_frame d st2
          rw [h3] at this
          exact this
        rcases r3 with e3 | u3
        · exact ⟨sameStatic_trans (sameStatic_trans f3.1 f2.1) f1,
            by simp [writesOf_append, f2.2, f3.2]⟩
        · dsimp only
          refine ⟨sameStatic_trans (sameStatic_trans
            (sameStatic_trans (clean_up_frame d st3).1 f3.1) f2.1) f1, ?_⟩
          simp [writesOf_append, f2.2, f3.2, (clean_up_frame d st3).2]
      · exact ⟨sameStatic_trans f2.1 f1, f2.2⟩

lemma runMountLoop_frame (d : FilesystemMountDefinition) :
    ∀ (cmds : List Cmd) (st : St),
      (runMountLoop d cmds st).1 ≠ .panicked ∧
      SameStatic (runMountLoop d cmds st).2.1 st ∧
      writesOf (runMountLoop d cmds st).2.2 = [] := by
  intro cmds
  induction cmds with
  | nil => exact fun st => ⟨by simp [runMountLoop], ⟨rfl, rfl, rfl, rfl⟩, rfl⟩
  | cons c rest ih =>
      intro st
      simp only [runMountLoop]
      rcases h1 : run_command c st with ⟨r1, st1, ev1⟩
      have f1 : SameStatic st1 st ∧ writesOf ev1 = [] := by
        have := run_command_frame c st
        rw [h1] at this
        exact this
      cases r1 with
      | ok _ =>
          rcases h2 : runMountLoop d rest st1 with ⟨r2, st2, ev2⟩
          have f2 := ih st1
          rw [h2] at f2
          exact ⟨f2.1, sameStatic_trans f2.2.1 f1.1,
            by simp [writesOf_append, f1.2, f2.2.2]⟩
      | error e =>
          rcases h2 : umount d st1 with ⟨r2, st2, ev2⟩
          have f2 : SameStatic st2 st1 ∧ writesOf ev2 = [] := by
            have := umount_frame d st1
            rw [h2] at this
            exact this
          dsimp only
          refine ⟨by simp, sameStatic_trans (sameStatic_trans
            (clean_up_frame d st2).1 f2.1) f1.1, ?_⟩
          simp [writesOf_append, f1.2, f2.2, (clean_up_frame d st2).2]

lemma mount_frame (d : FilesystemMountDefinition) (st : St)
    (hbuild : ∃ cs, mount_commands d = Except.ok cs) :
    (mount d st).1 ≠ .panicked ∧
    writesOf (mount d st).2.2 = [] := by
  obtain ⟨cs, hcs⟩ := hbuild
  simp only [mount]
  rcases h1 : is_definition_mounted d st with ⟨r1, st1⟩
  rcases r1 with e | b
  · exact ⟨by simp, rfl⟩
  · cases b
    · dsimp only
      rcases h2 : ensure_directory_recursively_created
        (local_mount_path d) st1 with ⟨r2, st2, ev2⟩
      have hev2 : ev2 = [Event.ensureDirCall (local_mount_path d)] := by
        have h' : (ensure_directory_recursively_created
            (local_mount_path d) st1).2.2
            = [Event.ensureDirCall (local_mount_path d)] := rfl
        rw [h2] at h'
        exact h'
      subst hev2
      rcases r2 with e2 | u2
      · exact ⟨by simp, by simp [writesOf]⟩
      · rw [hcs]
        dsimp only
        rcases h3 : runMountLoop d cs st2 with ⟨r3, st3, ev3⟩
        have f3 := runMountLoop_frame d cs st2
        rw [h3] at f3
        refine ⟨f3.1, ?_⟩
        simp only [writesOf_append, f3.2.2, List.append_nil]
        rfl
    · exact ⟨by simp, rfl⟩

/-! ## Claim theorems -/

/-- Claim C1: for a definition reported as currently mounted whose unmount
helper command fails, `umount` falls back to the sshfs-process lookup: when
no matching process is found it fails with the generic
could-not-determine-process error, and when one is found and the kill
sequence succeeds it cleans up the local mount directory (best effort) and
returns success, having run the unmount command exactly once. -/
theorem umount_busy_fallback (d : FilesystemMountDefinition) (st : St)
    (hm : mounted_answer d (st.tables.headD []) = .ok true)
    (hfail : st.cmdOutcomes.headD .startFailure ≠ .success) :
    (sshfs_pid_by_definition d (st.procs.headD (.ok [])) = .ok none →
       (umount d st).1 =
         .error (.generic ("Failed to determine pid for: " ++ d.id)))
    ∧ (∀ pid : Int,
        sshfs_pid_by_definition d (st.procs.headD (.ok [])) = .ok (some pid) →
        (ensure_process_killed pid 500 2000 (st.kills.headD defaultKill)).1
          = .ok () →
        (umount d st).1 = .ok ()
        ∧ (umount d st).2.2 =
            [.ran ⟨"fusermount", ["-u", local_mount_path d]⟩,
             .removeDirCall (local_mount_path d)]
            ++ (ensure_process_killed pid 500 2000
                  (st.kills.headD defaultKill)).2
            ++ [.removeDirCall (local_mount_path d)]
        ∧ countRan (umount d st).2.2 = 1) := by
  obtain ⟨ts, cs, ds, ps, ks, cfg, cde, cdo, wo⟩ := st
  simp only [mounted_answer] at hm
  simp only at hm hfail ⊢
  rcases ts with _ | ⟨t, ts'⟩
  · simp [isMountedLoop] at hm
  simp only [List.headD_cons] at hm
  rcases cs with _ | ⟨o, cs'⟩
  · constructor
    · intro hnone
      simp only [umount, is_definition_mounted, get_mounts_under_path,
        popTable, List.headD_cons, List.headD_nil, List.tail, hm,
        do_umount, umount_commands, runUmountLoop, run_command, popCmd,
        clean_up_after_unmount, popDir, kill_sshfs_for_definition,
        popProcs, popKill, hnone]
    · intro pid hsome hkill
      simp only [umount, is_definition_mounted, get_mounts_under_path,
        popTable, List.headD_cons, List.headD_nil, List.tail, hm,
        do_umount, umount_commands, runUmountLoop, run_command, popCmd,
        clean_up_after_unmount, popDir, kill_sshfs_for_definition,
        popProcs, popKill, hsome] at hkill ⊢
      rcases hek : ensure_process_killed pid 500 2000 (ks.headD defaultKill)
        with ⟨r, evs⟩
      simp only [hek] at hkill ⊢
      subst hkill
      refine ⟨rfl, rfl, ?_⟩
      have h0 := countRan_kill pid 500 2000 (ks.headD defaultKill)
      rw [hek] at h0
      simp only at h0
      simp only [countRan_append, h0]
      rfl
  · rcases o with _ | _ | _
    · exact absurd rfl hfail
    all_goals (
      constructor
      · intro hnone
        simp only [umount, is_definition_mounted, get_mounts_under_path,
          popTable, List.headD_cons, List.headD_nil, List.tail, hm,
          do_umount, umount_commands, runUmountLoop, run_command, popCmd,
          clean_up_after_unmount, popDir, kill_sshfs_for_definition,
          popProcs, popKill, hnone]
      · intro pid hsome hkill
        simp only [umount, is_definition_mounted, get_mounts_under_path,
          popTable, List.headD_cons, List.headD_nil, List.tail, hm,
          do_umount, umount_commands, runUmountLoop, run_command, popCmd,
          clean_up_after_unmount, popDir, kill_sshfs_for_definition,
          popProcs, popKill, hsome] at hkill ⊢
        rcases hek : ensure_process_killed pid 500 2000 (ks.headD defaultKill)
          with ⟨r, evs⟩
        simp only [hek] at hkill ⊢
        subst hkill
        refine ⟨rfl, rfl, ?_⟩
        have h0 := countRan_kill pid 500 2000 (ks.headD defaultKill)
        rw [hek] at h0
        simp only at h0
        simp only [countRan_append, h0]
        rfl
    )

/-- Witness for C1 at a concrete mounted definition whose unmount command
exits non-zero, with a matching sshfs process (pid 7) and a successful
kill sequence. -/
theorem umount_busy_fallback_witness :
    (umount c1_def c1_st).1 = .ok ()
    ∧ (umount c1_def c1_st).2.2 =
        [.ran ⟨"fusermount", ["-u", local_mount_path c1_def]⟩,
         .removeDirCall (local_mount_path c1_def)]
        ++ (ensure_process_killed 7 500 2000
              (c1_st.kills.headD defaultKill)).2
        ++ [.removeDirCall (local_mount_path c1_def)]
    ∧ countRan (umount c1_def c1_st).2.2 = 1 :=
  (umount_busy_fallback c1_def c1_st rfl (by decide)).2 7 rfl rfl

/-- Claim C2: when `mount` proceeds (not mounted, directory created,
commands built) and its `k`-th command is the first to fail, the returned
error is that command's own failure, and the trace shows the best-effort
cleanup unmount followed by the best-effort directory removal — for every
environment, so the cleanup's own failures never replace the error. -/
theorem mount_failure_cleanup (d : FilesystemMountDefinition) (st : St)
    (cmds : List Cmd) (k : Nat)
    (hnm : mounted_answer d (st.tables.headD []) = Except.ok false)
    (hdir : st.dirOk.headD false = true)
    (hbuild : mount_commands d = .ok cmds)
    (hk : k < cmds.length)
    (hsucc : ∀ i, i < k →
      st.cmdOutcomes.getD i .startFailure = .success)
    (hfail : st.cmdOutcomes.getD k .startFailure ≠ .success) :
    (mount d st).1 =
      .err (errAt (st.cmdOutcomes.getD k .startFailure)
        (cmds.getD k ⟨"", []⟩))
    ∧ (mount d st).2.2 =
        [.ensureDirCall (local_mount_path d)]
        ++ (cmds.take (k+1)).map .ran
        ++ (umount d
             { st with
                tables := st.tables.tail,
                dirOk := st.dirOk.tail,
                cmdOutcomes := st.cmdOutcomes.drop (k+1) }).2.2
        ++ [.removeDirCall (local_mount_path d)] := by
  obtain ⟨ts, cs, ds, ps, ks, cfg, cde, cdo, wo⟩ := st
  simp only [mounted_answer] at hnm
  simp only at hnm hdir hsucc hfail ⊢
  have hloop := runMountLoop_fail d k cmds
    ⟨ts.tail, cs, ds.tail, ps, ks, cfg, cde, cdo, wo⟩
    (by intro i hi; simpa using hsucc i hi)
    hk (by simpa using hfail)
  simp only at hloop
  simp only [mount, is_definition_mounted, get_mounts_under_path, popTable,
    hnm, ensure_directory_recursively_created, popDir, hdir, hbuild,
    if_true, hloop]
  simp

/-- Witness for C2 at a concrete unmounted definition whose single mount
command exits non-zero. -/
theorem mount_failure_cleanup_witness :
    (mount c2_def c2_st).1 =
      .err (.commandUnsuccessful (sshfs_command c2_def))
    ∧ (mount c2_def c2_st).2.2 =
        [.ensureDirCall (local_mount_path c2_def)]
        ++ [.ran (sshfs_command c2_def)]
        ++ (umount c2_def
             { c2_st with
                tables := c2_st.tables.tail,
                dirOk := c2_st.dirOk.tail,
                cmdOutcomes := [] }).2.2
        ++ [.removeDirCall (local_mount_path c2_def)] :=
  mount_failure_cleanup c2_def c2_st [sshfs_command c2_def] 0 rfl rfl rfl
    (by decide) (fun i hi => absurd hi (Nat.not_lt_zero i)) (by decide)

/-- Claim C3, counterexample: `persist` on an existing, currently mounted
record does not always return success — when the new definition's
before-mount command starts with a space, the remount step's unwrapped
command building aborts, so the call panics instead of returning. -/
theorem persist_remount_build_panic_counterexample :
    (persist "/cfg" c3_new c3_st).1 = .panicked
    ∧ (persist "/cfg" c3_new c3_st).1 ≠ .ok := ⟨rfl, by decide⟩

/-- Claim C3 as amended: `persist` on an existing, currently mounted record
unmounts the old definition first (any outcome tolerated), writes the new
record (the write must succeed), then remounts using the new definition
(any outcome tolerated) — provided the new definition's mount-command
building succeeds, so the remount cannot abort. The call returns success,
the trace is unmount-old, write-new, mount-new in that order, and the only
write is the new record. -/
theorem persist_existing_mounted_updates_record (cfgRoot : String)
    (dnew old : FilesystemMountDefinition) (st : St)
    (hold : st.config = some old)
    (hm : mounted_answer old (st.tables.headD []) = .ok true)
    (hdir : st.configDirExists = true ∨ st.createDirOk = true)
    (hw : st.writeOk = true)
    (hbuild : ∃ cs, mount_commands dnew = Except.ok cs) :
    (persist cfgRoot dnew st).1 = .ok
    ∧ (persist cfgRoot dnew st).2.2 =
        (umount old { st with tables := st.tables.tail }).2.2
        ++ [.wroteFile (config_path_for_definition_id cfgRoot dnew.id) dnew]
        ++ (mount dnew
             (umount old { st with tables := st.tables.tail }).2.1).2.2
    ∧ writesOf (persist cfgRoot dnew st).2.2 =
        [(config_path_for_definition_id cfgRoot dnew.id, dnew)] := by
  obtain ⟨ts, cs, ds, ps, ks, cfg, cde, cdo, wo⟩ := st
  simp only at hold hm hdir hw ⊢
  subst hold
  simp only [mounted_answer] at hm
  simp only [persist, is_definition_mounted, get_mounts_under_path, popTable,
    hm, if_true]
  rcases hu : umount old ⟨ts.tail, cs, ds, ps, ks, some old, cde, cdo, wo⟩
    with ⟨ru, stu, evU⟩
  have fu := umount_frame old
    ⟨ts.tail, cs, ds, ps, ks, some old, cde, cdo, wo⟩
  rw [hu] at fu
  obtain ⟨⟨fcfg, fcde, fcdo, fwo⟩, fwrites⟩ := fu
  simp only at fcfg fcde fcdo fwo
  dsimp only
  simp only [persistWrite, fcde, fcdo, fwo, hw]
  have hcond : ¬(cde = false ∧ cdo = false) := by
    rcases hdir with h | h <;> simp [h]
  rw [if_neg hcond, if_neg (by simp)]
  simp only [if_true]
  simp only at fwrites
  rcases hmnt : mount dnew stu with ⟨rm, stm, evM⟩
  have fm := mount_frame dnew stu hbuild
  rw [hmnt] at fm
  have fm2 : writesOf evM = [] := by simpa using fm.2
  rcases rm with _ | e | _
  · dsimp only
    refine ⟨rfl, by simp, ?_⟩
    simp only [writesOf_append, fwrites, fm2, List.nil_append,
      List.append_nil]
    rfl
  · dsimp only
    refine ⟨rfl, by simp, ?_⟩
    simp only [writesOf_append, fwrites, fm2, List.nil_append,
      List.append_nil]
    rfl
  · exact absurd rfl fm.1

/-- Witness for the amended C3 at a concrete mounted record whose host
changes and whose remount succeeds. -/
theorem persist_existing_mounted_updates_record_witness :
    (persist "/cfg" c3w_new c3w_st).1 = .ok
    ∧ (persist "/cfg" c3w_new c3w_st).2.2 =
        (umount c3_old { c3w_st with tables := c3w_st.tables.tail }).2.2
        ++ [.wroteFile (config_path_for_definition_id "/cfg" c3w_new.id)
              c3w_new]
        ++ (mount c3w_new
             (umount c3_old
               { c3w_st with tables := c3w_st.tables.tail }).2.1).2.2
    ∧ writesOf (persist "/cfg" c3w_new c3w_st).2.2 =
        [(config_path_for_definition_id "/cfg" c3w_new.id, c3w_new)] :=
  persist_existing_mounted_updates_record "/cfg" c3w_new c3_old c3w_st
    rfl rfl (Or.inl rfl) rfl ⟨[sshfs_command c3w_new], rfl⟩

/-- Claim C4: `ensure_process_killed` sends the graceful signal (send
outcome irrelevant), sleeps the first duration, and succeeds at once when
the process is then gone; otherwise it sleeps the first duration again
(`wait_time_before_forcefully_killing` is never slept), sends the forceful
signal (send outcome irrelevant), and fails exactly when the final liveness
check affirmatively reports the process alive. -/
theorem ensure_process_killed_state_machine (pid : Int) (w1 w2 : Nat)
    (k : KillBehavior) :
    ensure_process_killed pid w1 w2 k =
      if k.alive1 = some false then
        (Except.ok (), [.sentTerm pid, .slept w1])
      else
        ((if k.alive2 = some true then
            Except.error (Err.generic "Ultimately failed to kill process")
          else Except.ok ()),
         [.sentTerm pid, .slept w1, .slept w1, .sentKill pid]) := by
  rcases k with ⟨t, a1, ko, a2⟩
  cases a1 with
  | none =>
      cases a2 with
      | none => simp [ensure_process_killed]
      | some b => cases b <;> simp [ensure_process_killed]
  | some b1 =>
      cases b1 with
      | false => simp [ensure_process_killed]
      | true =>
          cases a2 with
          | none => simp [ensure_process_killed]
          | some b => cases b <;> simp [ensure_process_killed]

/-- Claim C5, counterexample: with two table entries at the same path —
the expected sshfs one first and a foreign-type one second — the code
returns `true` even though an entry with a different filesystem type exists
at the path, where the claim demands the mismatch failure. -/
theorem is_definition_mounted_overmount_counterexample :
    ((⟨"/mnt/sshfs/x", "ext4"⟩ : MountEntry) ∈ c5_table
      ∧ ("ext4" : String) ≠ VFS_TYPE_SSHFS)
    ∧ (is_definition_mounted c5_def c5_st).1 = .ok true := by
  refine ⟨⟨by decide, by decide⟩, ?_⟩
  rfl

/-- Claim C5 as amended: the mounted-state query is decided by the first
table entry located exactly at the effective local mount path — `true` when
it has the sshfs type, the mismatch error (carrying path, found and
expected types) when it has another type, and `false` when no entry at the
path exists. -/
theorem is_definition_mounted_first_entry_decides
    (d : FilesystemMountDefinition) (st : St) :
    (is_definition_mounted d st).1 =
      match (st.tables.headD []).find?
          (fun m => m.file = local_mount_path d) with
      | none => .ok false
      | some m =>
          if m.vfstype = VFS_TYPE_SSHFS then .ok true
          else .error (.mountVfsTypeMismatch (local_mount_path d)
                        m.vfstype VFS_TYPE_SSHFS) := by
  rw [is_definition_mounted_eq]
  show mounted_answer d (st.tables.headD []) = _
  rw [mounted_answer, isMountedLoop_eq_find, find_file_filter]

/-- Claim C6: whenever command building succeeds, the final command is the
mount helper with one `-o opt` pair per mount option in order, then the
`-o ssh_command=...` pair, then the connection target, then the effective
local mount path; and the serialized SSH invocation carries the port, the
10-second connect timeout, and the authType-determined clause (PublicKey:
preferred-authentications plus identity; AuthenticationAgent: neither;
otherwise: preferred-authentications only). -/
theorem mount_helper_command_shape (d : FilesystemMountDefinition)
    (cmds : List Cmd) (h : mount_commands d = .ok cmds) :
    cmds.getLast? = some
      ⟨"sshfs",
       (d.mount_options.map (fun o => ["-o", o])).flatten
         ++ ["-o", "ssh_command=" ++ command_to_string (ssh_command d)]
         ++ [connection_target d, local_mount_path d]⟩
    ∧ ssh_command d =
        ⟨"ssh", ["-p", toString d.port, "-o", "ConnectTimeout=10"]
          ++ spec_auth_args d⟩ := by
  constructor
  · rw [mount_commands_ok_last d cmds h]
    simp [sshfs_command, List.append_assoc]
  · rcases d with ⟨id, host, port, user, mo, rp, mdp, cbm, at_, sk⟩
    cases at_ <;> rfl

/-- Witness for C6 at a concrete PublicKey definition with two mount
options. -/
theorem mount_helper_command_shape_witness :
    ([sshfs_command c6_def] : List Cmd).getLast? = some
      ⟨"sshfs",
       (c6_def.mount_options.map (fun o => ["-o", o])).flatten
         ++ ["-o",
             "ssh_command=" ++ command_to_string (ssh_command c6_def)]
         ++ [connection_target c6_def, local_mount_path c6_def]⟩
    ∧ ssh_command c6_def =
        ⟨"ssh", ["-p", toString c6_def.port, "-o", "ConnectTimeout=10"]
          ++ spec_auth_args c6_def⟩ :=
  mount_helper_command_shape c6_def [sshfs_command c6_def] rfl

/-- Claim C7: the unmount-command builder returns exactly one command — the
unmount helper with its unmount flag and the effective local mount path. -/
theorem umount_command_shape (d : FilesystemMountDefinition) :
    umount_commands d = .ok [⟨"fusermount", ["-u", local_mount_path d]⟩] :=
  rfl

/-- Claim C8: `mount` called twice in a row on an already-mounted
definition runs no external commands and returns success both times, and
`umount` called twice in a row on an unmounted definition does the same —
the first call only consumes one table read, leaving the world otherwise
untouched for the second. -/
theorem mount_umount_idempotent (d : FilesystemMountDefinition)
    (stA stB : St) (tA tB : List MountEntry)
    (tsA tsB : List (List MountEntry))
    (hA : stA.tables = tA :: tA :: tsA)
    (hmA : mounted_answer d tA = .ok true)
    (hB : stB.tables = tB :: tB :: tsB)
    (hmB : mounted_answer d tB = .ok false) :
    mount d stA = (.ok, { stA with tables := tA :: tsA }, [])
    ∧ mount d { stA with tables := tA :: tsA }
        = (.ok, { stA with tables := tsA }, [])
    ∧ umount d stB = (.ok (), { stB with tables := tB :: tsB }, [])
    ∧ umount d { stB with tables := tB :: tsB }
        = (.ok (), { stB with tables := tsB }, []) := by
  obtain ⟨tsA', csA, dsA, psA, ksA, cfgA, cdeA, cdoA, woA⟩ := stA
  obtain ⟨tsB', csB, dsB, psB, ksB, cfgB, cdeB, cdoB, woB⟩ := stB
  simp only at hA hB
  subst hA
  subst hB
  refine ⟨?_, ?_, ?_, ?_⟩
  · simp [mount, is_definition_mounted, get_mounts_under_path, popTable,
      mounted_answer] at hmA ⊢
    simp [hmA]
  · simp [mount, is_definition_mounted, get_mounts_under_path, popTable,
      mounted_answer] at hmA ⊢
    simp [hmA]
  · simp [umount, is_definition_mounted, get_mounts_under_path, popTable,
      mounted_answer] at hmB ⊢
    simp [hmB]
  · simp [umount, is_definition_mounted, get_mounts_under_path, popTable,
      mounted_answer] at hmB ⊢
    simp [hmB]

/-- Witness for C8 at a concrete definition, a mounted two-read
environment, and an unmounted two-read environment. -/
theorem mount_umount_idempotent_witness :
    mount c8_def c8_stA = (.ok, { c8_stA with tables := [c8_table] }, [])
    ∧ mount c8_def { c8_stA with tables := [c8_table] }
        = (.ok, { c8_stA with tables := [] }, [])
    ∧ umount c8_def c8_stB = (.ok (), { c8_stB with tables := [[]] }, [])
    ∧ umount c8_def { c8_stB with tables := [[]] }
        = (.ok (), { c8_stB with tables := [] }, []) :=
  mount_umount_idempotent c8_def c8_stA c8_stB c8_table [] [] []
    rfl rfl rfl rfl

/-- Claim C9: for every definition with an in-range port, deserializing the
serialized record succeeds and returns the definition unchanged — all
fields, including the authType token, the ordered mount-option list with
duplicates, the optional local destination path, and the before-mount
string, survive the round trip. -/
theorem json_round_trip (d : FilesystemMountDefinition)
    (h : d.port < 65536) : from_json (to_json d) = .ok d := by
  rcases d with ⟨id, host, port, user, mo, rp, mdp, cbm, at_, sk⟩
  simp only at h
  simp only [to_json, from_json, reqStr, reqU16, reqStrList, optStr, defStr,
    getField, List.find?, bind, Except.bind, String.reduceEq,
    decide_True, decide_False, Option.map_some', Option.map_none',
    decodeStrings_map_str, from_string_to_static_str, h, if_true]
  cases mdp <;> rfl

/-- Witness for C9 at a concrete definition exercising duplicates in
`mountOptions`, a set `mountDestPath`, a non-empty `beforeMount`, and a
non-default `authType`. -/
theorem json_round_trip_witness :
    c9_def.port < 65536 ∧ from_json (to_json c9_def) = .ok c9_def :=
  ⟨by decide, json_round_trip c9_def (by decide)⟩

/-- Claim C10 is false on the code: a definition whose before-mount command
starts with a space makes `mount_commands` return the build error, and
`mount` — which unwraps that result — aborts rather than returning it. -/
theorem mount_unwrap_panic_on_leading_space :
    mount_commands c10_def =
      .error (.mountCommandBuilding
        "could not extract program name from  echo hi")
    ∧ (mount c10_def c10_st).1 = .panicked := ⟨rfl, rfl⟩

end SftpMan
